import Mathlib

/-!
Verification of `runServer` in `go/weed/server.go` of the seaweedfs
repository (the `weed server` combined master + volume-server command).

The file embeds, faithfully to the Go source:

* the command-line flag set of `cmdServer` (lines 38-58) as `ServerConfig`,
  with `defaultServerConfig` carrying each flag's default value;
* Go's `strconv.Atoi` as `goAtoi` and `strings.Split(s, ",")` as
  `goSplitComma`;
* the sequential part of `runServer` (lines 60-97 plus the constructor
  calls at lines 107, 127 and 141) as a function from a configuration,
  a folder-writability oracle and the CPU count to either a fatal startup
  error (`glog.Fatalf` terminates the process) or a `ServerPlan` recording
  the exact arguments handed to `NewMasterServer`, `NewRaftServer` and
  `NewVolumeServer`;
* the concurrent bootstrap (the two goroutines, the two `sync.WaitGroup`s
  and the two `time.Sleep(100 * time.Millisecond)` calls, lines 99-153)
  as a happens-before relation on bootstrap events, with interleavings
  modelled as schedules (linear orders consistent with happens-before).
-/

/-- Go `strings.Split(s, ",")` on the character list: splitting at
every comma, with no comma yielding the one-element list and the empty
input yielding `[[]]`. -/
def splitCommaChars : List Char → List (List Char)
  | [] => [[]]
  | c :: rest =>
    if c = ',' then [] :: splitCommaChars rest
    else
      match splitCommaChars rest with
      | [] => [[c]]
      | group :: groups => (c :: group) :: groups

/-- Go `strings.Split(s, ",")`: `""` gives `[""]`, otherwise the
comma-separated pieces in order (empty pieces included). -/
def goSplitComma (s : String) : List String :=
  (splitCommaChars s.data).map List.asString

/-- Go `strconv.Atoi`: an optional `+`/`-` sign followed by at least one
decimal digit, with the value required to fit in a 64-bit `int`
(`strconv.ErrRange` otherwise).  `none` models a non-nil `error`. -/
def goAtoi (s : String) : Option Int :=
  let (sign, digits) :=
    match s.data with
    | '-' :: rest => ((-1 : Int), rest)
    | '+' :: rest => ((1 : Int), rest)
    | cs => ((1 : Int), cs)
  if digits.isEmpty then none
  else if digits.all Char.isDigit then
    let n : Nat := digits.foldl (fun acc c => acc * 10 + (c.toNat - 48)) 0
    let v : Int := sign * (n : Int)
    if -(2 ^ 63) ≤ v ∧ v < 2 ^ 63 then some v else none
  else none

/-- The flags of `cmdServer` (server.go lines 38-58).  `garbageThreshold`
is referenced at line 108 but declared in another file of package `main`
that is not part of `src/`, so it is carried as an opaque string field. -/
structure ServerConfig where
  serverIp : String
  serverMaxCpu : Int
  serverTimeout : Int
  serverDataCenter : String
  serverRack : String
  serverWhiteListOption : String
  serverPeers : String
  masterPort : Int
  masterMetaFolder : String
  masterVolumeSizeLimitMB : Nat
  masterConfFile : String
  masterDefaultReplicaPlacement : String
  volumePort : Int
  volumePublicUrl : String
  volumeDataFolders : String
  volumeMaxDataVolumeCounts : String
  volumePulse : Int
  garbageThreshold : String
  deriving Repr, DecidableEq, Inhabited

/-- The default flag values (server.go lines 39-55).  `-dir` defaults to
`os.TempDir()` and `garbageThreshold` is declared outside this file, so
both are taken as parameters. -/
def defaultServerConfig (tmpDir garbageThreshold : String) : ServerConfig :=
  { serverIp := "localhost"
    serverMaxCpu := 0
    serverTimeout := 10
    serverDataCenter := ""
    serverRack := ""
    serverWhiteListOption := ""
    serverPeers := ""
    masterPort := 9333
    masterMetaFolder := ""
    masterVolumeSizeLimitMB := 30 * 1000
    masterConfFile := "/etc/weedfs/weedfs.conf"
    masterDefaultReplicaPlacement := "000"
    volumePort := 8080
    volumePublicUrl := ""
    volumeDataFolders := tmpDir
    volumeMaxDataVolumeCounts := "7"
    volumePulse := 5
    garbageThreshold := garbageThreshold }

/-- A call to `glog.Fatalf` during the sequential part of `runServer`
(lines 66-90): the process exits before any server is constructed. -/
inductive FatalStartupError where
  /-- line 70: `Check Meta Folder (-mdir) Writable` -/
  | metaFolderNotWritable (folder : String)
  /-- line 80: `The max specified in -max not a valid number` -/
  | invalidMaxCount (entry : String)
  /-- line 84: `%d directories by -dir, but only %d max is set by -max` -/
  | dirMaxCountMismatch (dirs maxes : Nat)
  /-- line 88: `Check Data Folder(-dir) Writable` -/
  | dataFolderNotWritable (folder : String)
  deriving Repr, DecidableEq, Inhabited

/-- The loop at lines 76-82: `strconv.Atoi` each entry of `-max`,
appending successes; the first failing entry is fatal. -/
def parseMaxCounts : List String → Except String (List Int)
  | [] => .ok []
  | s :: rest =>
    match goAtoi s with
    | none => .error s
    | some v =>
      match parseMaxCounts rest with
      | .error bad => .error bad
      | .ok vs => .ok (v :: vs)

/-- Routers: `runServer` builds one `mux.NewRouter()` shared by the
master and raft servers (lines 106, 107, 127) and a separate
`http.NewServeMux()` for the volume server (lines 140-141). -/
def masterRouter : Nat := 0

/-- The volume server's own `http.NewServeMux()` (line 140). -/
def volumeRouter : Nat := 1

/-- Arguments of `weed_server.NewMasterServer` (line 107-109). -/
structure MasterServerArgs where
  router : Nat
  port : Int
  metaFolder : String
  volumeSizeLimitMB : Nat
  pulse : Int
  confFile : String
  defaultReplicaPlacement : String
  garbageThreshold : String
  whiteList : List String
  deriving Repr, DecidableEq, Inhabited

/-- Arguments of `weed_server.NewRaftServer` (line 127). -/
structure RaftServerArgs where
  router : Nat
  peers : List String
  httpAddr : String
  metaFolder : String
  pulse : Int
  deriving Repr, DecidableEq, Inhabited

/-- Arguments of `weed_server.NewVolumeServer` (lines 141-143). -/
structure VolumeServerArgs where
  router : Nat
  ip : String
  port : Int
  publicUrl : String
  folders : List String
  maxCounts : List Int
  masterAddr : String
  pulse : Int
  dataCenter : String
  rack : String
  whiteList : List String
  deriving Repr, DecidableEq, Inhabited

/-- Everything `runServer` computes on the non-fatal path: the effective
`GOMAXPROCS` value and the exact arguments of the three constructor
calls, plus the addresses the two listeners bind (lines 112-115,
146-149). -/
structure ServerPlan where
  gomaxprocs : Int
  master : MasterServerArgs
  raft : RaftServerArgs
  volume : VolumeServerArgs
  masterListenAddr : String
  volumeListenAddr : String
  deriving Repr, DecidableEq, Inhabited

/-- Lines 61-64: `-maxCpu` values below 1 mean `runtime.NumCPU()`,
otherwise the flag value itself is given to `runtime.GOMAXPROCS`. -/
def effectiveMaxCpu (serverMaxCpu : Int) (numCPU : Nat) : Int :=
  if serverMaxCpu < 1 then (numCPU : Int) else serverMaxCpu

/-- Lines 66-68: `-mdir` defaults to the verbatim value of `-dir`. -/
def effectiveMetaFolder (cfg : ServerConfig) : String :=
  if cfg.masterMetaFolder = "" then cfg.volumeDataFolders
  else cfg.masterMetaFolder

/-- The plan `runServer` executes once the checks of lines 66-90 all
pass: lines 92-97 derive the public URL, white list and peer list from
the flags, and lines 105-153 hand the recorded arguments to
`NewMasterServer` (line 107), `NewRaftServer` (line 127) and
`NewVolumeServer` (line 141) and bind the two listeners (lines 112,
146).  `maxCounts` is the list parsed from `-max`. -/
def planFor (cfg : ServerConfig) (numCPU : Nat) (maxCounts : List Int) :
    ServerPlan :=
  let metaFolder := effectiveMetaFolder cfg
  let folders := goSplitComma cfg.volumeDataFolders
  let publicUrl :=
    if cfg.volumePublicUrl = "" then
      cfg.serverIp ++ ":" ++ toString cfg.volumePort
    else cfg.volumePublicUrl
  let whiteList :=
    if cfg.serverWhiteListOption = "" then []
    else goSplitComma cfg.serverWhiteListOption
  let peers :=
    if cfg.serverPeers = "" then []
    else goSplitComma cfg.serverPeers
  let masterAddr := cfg.serverIp ++ ":" ++ toString cfg.masterPort
  { gomaxprocs := effectiveMaxCpu cfg.serverMaxCpu numCPU
    master :=
      { router := masterRouter
        port := cfg.masterPort
        metaFolder := metaFolder
        volumeSizeLimitMB := cfg.masterVolumeSizeLimitMB
        pulse := cfg.volumePulse
        confFile := cfg.masterConfFile
        defaultReplicaPlacement := cfg.masterDefaultReplicaPlacement
        garbageThreshold := cfg.garbageThreshold
        whiteList := whiteList }
    raft :=
      { router := masterRouter
        peers := peers
        httpAddr := masterAddr
        metaFolder := metaFolder
        pulse := cfg.volumePulse }
    volume :=
      { router := volumeRouter
        ip := cfg.serverIp
        port := cfg.volumePort
        publicUrl := publicUrl
        folders := folders
        maxCounts := maxCounts
        masterAddr := masterAddr
        pulse := cfg.volumePulse
        dataCenter := cfg.serverDataCenter
        rack := cfg.serverRack
        whiteList := whiteList }
    masterListenAddr := masterAddr
    volumeListenAddr := cfg.serverIp ++ ":" ++ toString cfg.volumePort }

/-- The sequential logic of `runServer` (lines 60-97) together with the
arguments of the three constructor calls it later issues (lines 107,
127, 141).  `writable` is the oracle for `util.TestFolderWritable`
(`true` = nil error); `numCPU` is `runtime.NumCPU()`.  A `.error` is a
`glog.Fatalf` before any server is constructed; on `.ok` the plan
records the constructor arguments verbatim. -/
def runServer (cfg : ServerConfig) (writable : String → Bool)
    (numCPU : Nat) : Except FatalStartupError ServerPlan :=
  let metaFolder := effectiveMetaFolder cfg
  if !writable metaFolder then
    .error (.metaFolderNotWritable metaFolder)
  else
    let folders := goSplitComma cfg.volumeDataFolders
    match parseMaxCounts (goSplitComma cfg.volumeMaxDataVolumeCounts) with
    | .error bad => .error (.invalidMaxCount bad)
    | .ok maxCounts =>
      if folders.length ≠ maxCounts.length then
        .error (.dirMaxCountMismatch folders.length maxCounts.length)
      else
        match folders.find? (fun folder => !writable folder) with
        | some folder => .error (.dataFolderNotWritable folder)
        | none => .ok (planFor cfg numCPU maxCounts)

/-!
## The concurrent bootstrap (lines 99-153)

On the non-fatal path `runServer` runs three threads of control:

* the main goroutine (lines 99-157): after the two `Add(1)` calls it
  spawns the master goroutine, blocks in `volumeWait.Wait()`, sleeps
  100 ms, constructs the volume server and serves it;
* the master goroutine (lines 105-136): builds the router, calls
  `NewMasterServer`, binds the master listener, spawns the raft
  goroutine, calls `raftWaitForMaster.Done()` and enters `http.Serve`;
* the raft goroutine (lines 120-130): blocks in
  `raftWaitForMaster.Wait()`, sleeps 100 ms, splits the peer flag,
  calls `NewRaftServer` (with the full peer set) and
  `ms.SetRaftServer`, then `volumeWait.Done()`.

The only synchronization is the two wait groups plus the two fixed
100 ms sleeps; `BootstrapEvent` lists the observable steps and
`hbEdges` the happens-before edges induced by program order, goroutine
spawning and the wait-group Done/Wait pairs.  A `time.Sleep` imposes no
cross-goroutine ordering, so no edge leaves `httpServeMaster` towards
the raft goroutine. -/
inductive BootstrapEvent where
  /-- main: lines 61-97 succeed (the sequential phase). -/
  | configChecked
  /-- main, line 105: `go func() ...` spawning the master goroutine. -/
  | spawnMasterGoroutine
  /-- master goroutine, line 107: `NewMasterServer`. -/
  | newMasterServer
  /-- master goroutine, lines 112-115: `util.NewListener` binds
  `ip:masterPort`; from here TCP connections to the endpoint succeed. -/
  | masterListenerBound
  /-- master goroutine, line 120: spawning the raft goroutine. -/
  | spawnRaftGoroutine
  /-- master goroutine, line 132: `raftWaitForMaster.Done()`. -/
  | raftWaitDone
  /-- master goroutine, line 133: `http.Serve(masterListener, r)`
  starts accepting and answering HTTP requests. -/
  | httpServeMaster
  /-- raft goroutine, line 121: `raftWaitForMaster.Wait()` returns. -/
  | raftWaitReturns
  /-- raft goroutine, line 122: `time.Sleep(100 * time.Millisecond)`. -/
  | raftSleep
  /-- raft goroutine, lines 123-127: the peer list is split from the
  flag and `NewRaftServer` is called with it; raft elections can begin
  from this point on. -/
  | newRaftServer
  /-- raft goroutine, line 128: `ms.SetRaftServer(raftServer)`. -/
  | setRaftServer
  /-- raft goroutine, line 129: `volumeWait.Done()`. -/
  | volumeWaitDone
  /-- main, line 138: `volumeWait.Wait()` returns. -/
  | volumeWaitReturns
  /-- main, line 139: `time.Sleep(100 * time.Millisecond)`. -/
  | mainSleep
  /-- main, lines 140-143: `NewVolumeServer` is constructed; the volume
  server's heartbeat loop starts with its construction. -/
  | newVolumeServer
  /-- main, lines 146-149: the volume listener binds `ip:port`. -/
  | volumeListenerBound
  /-- main, line 153: `http.Serve(volumeListener, r)`. -/
  | httpServeVolume
  deriving Repr, DecidableEq, Inhabited

open BootstrapEvent

/-- Every bootstrap event, once. -/
def allBootstrapEvents : List BootstrapEvent :=
  [configChecked, spawnMasterGoroutine, newMasterServer,
   masterListenerBound, spawnRaftGoroutine, raftWaitDone,
   httpServeMaster, raftWaitReturns, raftSleep, newRaftServer,
   setRaftServer, volumeWaitDone, volumeWaitReturns, mainSleep,
   newVolumeServer, volumeListenerBound, httpServeVolume]

/-- The duration, in milliseconds, of the `time.Sleep` an event stands
for (lines 122 and 139), if it is a sleep. -/
def sleepMilliseconds : BootstrapEvent → Option Nat
  | raftSleep => some 100
  | mainSleep => some 100
  | _ => none

/-- The happens-before edges of the bootstrap: program order inside
each goroutine, a `go` statement before the first event of the spawned
goroutine, and each `WaitGroup.Done` before the matching `Wait`
returns.  The sleeps order nothing across goroutines: in particular no
edge places `httpServeMaster` before any raft-goroutine event. -/
def hbEdges : List (BootstrapEvent × BootstrapEvent) :=
  [ -- main goroutine program order
   (configChecked, spawnMasterGoroutine),
   (spawnMasterGoroutine, volumeWaitReturns),
   (volumeWaitReturns, mainSleep),
   (mainSleep, newVolumeServer),
   (newVolumeServer, volumeListenerBound),
   (volumeListenerBound, httpServeVolume),
   -- master goroutine program order
   (newMasterServer, masterListenerBound),
   (masterListenerBound, spawnRaftGoroutine),
   (spawnRaftGoroutine, raftWaitDone),
   (raftWaitDone, httpServeMaster),
   -- raft goroutine program order
   (raftWaitReturns, raftSleep),
   (raftSleep, newRaftServer),
   (newRaftServer, setRaftServer),
   (setRaftServer, volumeWaitDone),
   -- goroutine spawn edges
   (spawnMasterGoroutine, newMasterServer),
   (spawnRaftGoroutine, raftWaitReturns),
   -- sync.WaitGroup edges: Done happens-before Wait returning
   (raftWaitDone, raftWaitReturns),
   (volumeWaitDone, volumeWaitReturns)]

/-- A schedule is one interleaved execution of the bootstrap: all 17
events in some order consistent with every happens-before edge. -/
def IsBootstrapSchedule (sched : List BootstrapEvent) : Prop :=
  sched.Perm allBootstrapEvents ∧
  ∀ e ∈ hbEdges, sched.indexOf e.1 < sched.indexOf e.2

instance (sched : List BootstrapEvent) :
    Decidable (IsBootstrapSchedule sched) := by
  unfold IsBootstrapSchedule; infer_instance

/-- A schedule in which the raft goroutine runs to completion as soon
as `raftWaitForMaster.Done()` unblocks it, before the master goroutine
reaches `http.Serve`: the raft server is constructed while nothing is
serving the master endpoint yet. -/
def raftBeforeServeSchedule : List BootstrapEvent :=
  [configChecked, spawnMasterGoroutine, newMasterServer,
   masterListenerBound, spawnRaftGoroutine, raftWaitDone,
   raftWaitReturns, raftSleep, newRaftServer, setRaftServer,
   volumeWaitDone, httpServeMaster, volumeWaitReturns, mainSleep,
   newVolumeServer, volumeListenerBound, httpServeVolume]

/-!
## Helper lemmas
-/

/-- `parseMaxCounts` succeeds with one count per `-max` entry. -/
theorem parseMaxCounts_ok_length :
    ∀ {l : List String} {v : List Int},
      parseMaxCounts l = .ok v → v.length = l.length := by
  intro l
  induction l with
  | nil =>
    intro v h
    simp only [parseMaxCounts] at h
    cases h
    rfl
  | cons s rest ih =>
    intro v h
    simp only [parseMaxCounts] at h
    cases hA : goAtoi s with
    | none => rw [hA] at h; cases h
    | some a =>
      rw [hA] at h
      cases hR : parseMaxCounts rest with
      | error bad => rw [hR] at h; cases h
      | ok vs =>
        rw [hR] at h
        cases h
        simp [ih hR]

/-- An entry of `-max` that `strconv.Atoi` rejects makes
`parseMaxCounts` fail. -/
theorem parseMaxCounts_error_of_mem :
    ∀ {l : List String} {s : String}, s ∈ l → goAtoi s = none →
      ∃ bad, parseMaxCounts l = .error bad := by
  intro l
  induction l with
  | nil => intro s hmem _; cases hmem
  | cons t rest ih =>
    intro s hmem hA
    cases hmem with
    | head =>
      exact ⟨t, by simp only [parseMaxCounts]; rw [hA]⟩
    | tail _ hm =>
      cases hT : goAtoi t with
      | none => exact ⟨t, by simp only [parseMaxCounts]; rw [hT]⟩
      | some v =>
        obtain ⟨bad, hb⟩ := ih hm hA
        exact ⟨bad, by simp only [parseMaxCounts]; rw [hT, hb]⟩

/-- Inversion of the non-fatal path of `runServer`: an `.ok` result
means every check of lines 66-90 passed and the plan is exactly
`planFor` at the parsed `-max` counts. -/
theorem runServer_ok_inv {cfg : ServerConfig} {writable : String → Bool}
    {numCPU : Nat} {plan : ServerPlan}
    (h : runServer cfg writable numCPU = .ok plan) :
    writable (effectiveMetaFolder cfg) = true ∧
    ∃ maxCounts,
      parseMaxCounts (goSplitComma cfg.volumeMaxDataVolumeCounts) =
        .ok maxCounts ∧
      (goSplitComma cfg.volumeDataFolders).length = maxCounts.length ∧
      (∀ f ∈ goSplitComma cfg.volumeDataFolders, writable f = true) ∧
      plan = planFor cfg numCPU maxCounts := by
  unfold runServer at h
  dsimp only at h
  cases hw : writable (effectiveMetaFolder cfg) with
  | false => rw [hw] at h; cases h
  | true =>
    rw [hw] at h
    simp only [Bool.not_true, Bool.false_eq_true, if_false] at h
    cases hp : parseMaxCounts (goSplitComma cfg.volumeMaxDataVolumeCounts) with
    | error bad => rw [hp] at h; cases h
    | ok maxCounts =>
      rw [hp] at h
      dsimp only at h
      by_cases hlen :
          (goSplitComma cfg.volumeDataFolders).length = maxCounts.length
      · rw [if_neg (by simp [hlen])] at h
        cases hf : (goSplitComma cfg.volumeDataFolders).find?
            (fun folder => !writable folder) with
        | some folder => rw [hf] at h; cases h
        | none =>
          rw [hf] at h
          cases h
          refine ⟨rfl, maxCounts, rfl, hlen, ?_, rfl⟩
          intro f hfmem
          have := List.find?_eq_none.mp hf f hfmem
          simpa using this
      · rw [if_pos hlen] at h
        cases h

/-!
## Demo configurations used by witnesses
-/

/-- An environment in which every folder is writable. -/
def demoWritable : String → Bool := fun _ => true

/-- The default flag values with `/tmp` for `os.TempDir()` and the
out-of-file `garbageThreshold` default `0.3`. -/
def demoConfig : ServerConfig := defaultServerConfig "/tmp" "0.3"

/-- The plan `runServer` produces on `demoConfig` in a fully writable
environment with 4 CPUs. -/
def demoPlan : ServerPlan :=
  match runServer demoConfig demoWritable 4 with
  | .ok plan => plan
  | .error _ => default

/-- `runServer` succeeds on the default configuration. -/
theorem runServer_demoConfig_ok :
    runServer demoConfig demoWritable 4 = .ok demoPlan := by
  rfl

/-- Two data folders but a single `-max` entry. -/
def mismatchConfig : ServerConfig :=
  { demoConfig with volumeDataFolders := "/d1,/d2" }

/-- Two data folders, two `-max` entries, `-mdir` left empty. -/
def multiDirConfig : ServerConfig :=
  { demoConfig with
      volumeDataFolders := "/d1,/d2"
      volumeMaxDataVolumeCounts := "7,7" }

/-- An environment in which every path is writable except the literal
comma-joined string `/d1,/d2`. -/
def joinedPathUnwritable : String → Bool := fun s => !(s == "/d1,/d2")

/-!
## The claims
-/

/-- **C2.** Any configuration whose `-dir` folder count differs from
its `-max` count, or with a `-max` entry `strconv.Atoi` rejects, or
with an unwritable data folder or metadata folder, makes `runServer`
hit one of the `glog.Fatalf` calls of lines 69-90: the process dies
with a `FatalStartupError` and no `ServerPlan` exists, i.e.
`NewMasterServer`, `NewRaftServer` and `NewVolumeServer` are never
reached.  No such error is recoverable: `runServer` has no non-fatal
path for it. -/
theorem runServer_config_errors_fatal (cfg : ServerConfig)
    (writable : String → Bool) (numCPU : Nat)
    (h : (goSplitComma cfg.volumeDataFolders).length ≠
           (goSplitComma cfg.volumeMaxDataVolumeCounts).length ∨
         (∃ s ∈ goSplitComma cfg.volumeMaxDataVolumeCounts,
            goAtoi s = none) ∨
         (∃ f ∈ goSplitComma cfg.volumeDataFolders, writable f = false) ∨
         writable (effectiveMetaFolder cfg) = false) :
    ∃ e, runServer cfg writable numCPU = .error e := by
  cases hr : runServer cfg writable numCPU with
  | error e => exact ⟨e, rfl⟩
  | ok plan =>
    exfalso
    obtain ⟨hw, maxCounts, hp, hlen, hwf, -⟩ := runServer_ok_inv hr
    rcases h with h | h | h | h
    · exact h (by rw [hlen, parseMaxCounts_ok_length hp])
    · obtain ⟨s, hmem, hA⟩ := h
      obtain ⟨bad, hb⟩ := parseMaxCounts_error_of_mem hmem hA
      rw [hb] at hp
      cases hp
    · obtain ⟨f, hmem, hf⟩ := h
      rw [hwf f hmem] at hf
      cases hf
    · rw [hw] at h
      cases h

/-- Witness for C2 at a concrete input: two folders against one
`-max` entry is fatal. -/
theorem runServer_config_errors_fatal_witness :
    ((goSplitComma mismatchConfig.volumeDataFolders).length ≠
      (goSplitComma mismatchConfig.volumeMaxDataVolumeCounts).length) ∧
    ∃ e, runServer mismatchConfig demoWritable 4 = .error e :=
  ⟨by decide,
   runServer_config_errors_fatal mismatchConfig demoWritable 4
     (Or.inl (by decide))⟩

/-- **C10.** Lines 61-64: a `-maxCpu` below 1 (the default is 0) makes
`runServer` pass `runtime.NumCPU()` to `runtime.GOMAXPROCS`; a value
of at least 1 is passed through exactly. -/
theorem gomaxprocs_from_maxCpu (maxCpu : Int) (numCPU : Nat)
    (tmpDir g : String) :
    (maxCpu < 1 → effectiveMaxCpu maxCpu numCPU = (numCPU : Int)) ∧
    (1 ≤ maxCpu → effectiveMaxCpu maxCpu numCPU = maxCpu) ∧
    (defaultServerConfig tmpDir g).serverMaxCpu = 0 ∧
    ∀ (cfg : ServerConfig) (writable : String → Bool) (plan : ServerPlan),
      runServer cfg writable numCPU = .ok plan →
      plan.gomaxprocs = effectiveMaxCpu cfg.serverMaxCpu numCPU := by
  refine ⟨?_, ?_, rfl, ?_⟩
  · intro h
    simp [effectiveMaxCpu, h]
  · intro h
    rw [effectiveMaxCpu, if_neg (by omega)]
  · intro cfg writable plan h
    obtain ⟨-, maxCounts, -, -, -, hplan⟩ := runServer_ok_inv h
    subst hplan
    rfl

/-- Witness for C10 at `-maxCpu` 0 (default) and 3 with 4 CPUs. -/
theorem gomaxprocs_from_maxCpu_witness :
    ((0 : Int) < 1 ∧ effectiveMaxCpu 0 4 = 4) ∧
    ((1 : Int) ≤ 3 ∧ effectiveMaxCpu 3 4 = 3) :=
  ⟨⟨by decide, (gomaxprocs_from_maxCpu 0 4 "/tmp" "0.3").1 (by decide)⟩,
   ⟨by decide, (gomaxprocs_from_maxCpu 3 4 "/tmp" "0.3").2.1 (by decide)⟩⟩

/-- **C1.** In every interleaving the bootstrap permits: the master
HTTP endpoint is started (its listener bound at `ip:masterPort`, so the
endpoint accepts connections) strictly before `NewRaftServer` runs —
and elections can only begin once `NewRaftServer` has run, with the
full peer set among its arguments; the raft server is then attached
via `SetRaftServer` strictly before `NewVolumeServer` constructs the
volume server, whose heartbeat loop starts with its construction. -/
theorem bootstrap_ordering (sched : List BootstrapEvent)
    (h : IsBootstrapSchedule sched) :
    sched.indexOf masterListenerBound < sched.indexOf newRaftServer ∧
    sched.indexOf newRaftServer < sched.indexOf setRaftServer ∧
    sched.indexOf setRaftServer < sched.indexOf newVolumeServer := by
  obtain ⟨-, hE⟩ := h
  have e1 := hE (masterListenerBound, spawnRaftGoroutine) (by decide)
  have e2 := hE (spawnRaftGoroutine, raftWaitReturns) (by decide)
  have e3 := hE (raftWaitReturns, raftSleep) (by decide)
  have e4 := hE (raftSleep, newRaftServer) (by decide)
  have e5 := hE (newRaftServer, setRaftServer) (by decide)
  have e6 := hE (setRaftServer, volumeWaitDone) (by decide)
  have e7 := hE (volumeWaitDone, volumeWaitReturns) (by decide)
  have e8 := hE (volumeWaitReturns, mainSleep) (by decide)
  have e9 := hE (mainSleep, newVolumeServer) (by decide)
  dsimp only at e1 e2 e3 e4 e5 e6 e7 e8 e9
  refine ⟨by omega, by omega, by omega⟩

/-- Witness for C1 on a concrete schedule. -/
theorem bootstrap_ordering_witness :
    IsBootstrapSchedule raftBeforeServeSchedule ∧
    raftBeforeServeSchedule.indexOf masterListenerBound <
      raftBeforeServeSchedule.indexOf newRaftServer :=
  ⟨by decide,
   (bootstrap_ordering raftBeforeServeSchedule (by decide)).1⟩

/-- **C3.** The bootstrap handoffs are wait-group signals followed by
fixed 100 ms sleeps (lines 121-122 and 138-139); nothing orders
`http.Serve` (line 133) before the raft goroutine's work, so there is
a permitted interleaving in which `NewRaftServer` runs — and elections
may begin — while the master listener is not yet serving. -/
theorem bootstrap_sleep_handoff_race :
    sleepMilliseconds raftSleep = some 100 ∧
    sleepMilliseconds mainSleep = some 100 ∧
    ∃ sched, IsBootstrapSchedule sched ∧
      sched.indexOf newRaftServer < sched.indexOf httpServeMaster :=
  ⟨rfl, rfl, raftBeforeServeSchedule, by decide, by decide⟩

/-- **C4.** The `-pulseSeconds` flag defaults to 5, and `runServer`
passes the one flag value as the pulse argument of both
`NewMasterServer` (line 108) and `NewVolumeServer` (line 142), so
master-side staleness tracking and node-side heartbeating share one
interval. -/
theorem pulse_default_and_shared (tmpDir g : String) (cfg : ServerConfig)
    (writable : String → Bool) (numCPU : Nat) (plan : ServerPlan)
    (h : runServer cfg writable numCPU = .ok plan) :
    (defaultServerConfig tmpDir g).volumePulse = 5 ∧
    plan.master.pulse = cfg.volumePulse ∧
    plan.volume.pulse = cfg.volumePulse ∧
    plan.master.pulse = plan.volume.pulse := by
  obtain ⟨-, maxCounts, -, -, -, hplan⟩ := runServer_ok_inv h
  subst hplan
  exact ⟨rfl, rfl, rfl, rfl⟩

/-- Witness for C4 on the default configuration. -/
theorem pulse_default_and_shared_witness :
    runServer demoConfig demoWritable 4 = .ok demoPlan ∧
    demoConfig.volumePulse = 5 ∧
    demoPlan.master.pulse = 5 ∧ demoPlan.volume.pulse = 5 := by
  have h := pulse_default_and_shared "/tmp" "0.3" demoConfig demoWritable 4
    demoPlan runServer_demoConfig_ok
  exact ⟨runServer_demoConfig_ok, rfl, h.2.1.trans rfl, h.2.2.1.trans rfl⟩

/-- **C5.** On every accepted configuration the folder list split from
`-dir` and the count list parsed from `-max` reach `NewVolumeServer`
unchanged and in order (so the i-th folder is paired with the i-th
count), their lengths are equal, and every listed folder passed the
writability check of lines 86-90. -/
theorem folders_maxCounts_paired (cfg : ServerConfig)
    (writable : String → Bool) (numCPU : Nat) (plan : ServerPlan)
    (h : runServer cfg writable numCPU = .ok plan) :
    plan.volume.folders = goSplitComma cfg.volumeDataFolders ∧
    parseMaxCounts (goSplitComma cfg.volumeMaxDataVolumeCounts) =
      .ok plan.volume.maxCounts ∧
    plan.volume.folders.length = plan.volume.maxCounts.length ∧
    ∀ f ∈ plan.volume.folders, writable f = true := by
  obtain ⟨-, maxCounts, hp, hlen, hwf, hplan⟩ := runServer_ok_inv h
  subst hplan
  exact ⟨rfl, hp, hlen, hwf⟩

/-- Witness for C5 on a two-folder configuration. -/
theorem folders_maxCounts_paired_witness :
    runServer multiDirConfig demoWritable 4 =
      .ok (planFor multiDirConfig 4 [7, 7]) ∧
    (planFor multiDirConfig 4 [7, 7]).volume.folders = ["/d1", "/d2"] ∧
    (planFor multiDirConfig 4 [7, 7]).volume.maxCounts = [7, 7] ∧
    (planFor multiDirConfig 4 [7, 7]).volume.folders.length =
      (planFor multiDirConfig 4 [7, 7]).volume.maxCounts.length := by
  have hok : runServer multiDirConfig demoWritable 4 =
      .ok (planFor multiDirConfig 4 [7, 7]) := by rfl
  have h := folders_maxCounts_paired multiDirConfig demoWritable 4
    (planFor multiDirConfig 4 [7, 7]) hok
  exact ⟨hok, by decide, by decide, h.2.2.1⟩

/-- **C6.** An empty `-whiteList` flag leaves `serverWhiteList` nil and
both constructors receive the empty list (no write restriction); a
non-empty flag is comma-split once (line 96) and the identical list is
given to `NewMasterServer` and `NewVolumeServer`. -/
theorem whiteList_optional_and_shared (cfg : ServerConfig)
    (writable : String → Bool) (numCPU : Nat) (plan : ServerPlan)
    (h : runServer cfg writable numCPU = .ok plan) :
    (cfg.serverWhiteListOption = "" →
      plan.master.whiteList = [] ∧ plan.volume.whiteList = []) ∧
    (cfg.serverWhiteListOption ≠ "" →
      plan.master.whiteList = goSplitComma cfg.serverWhiteListOption ∧
      plan.volume.whiteList = goSplitComma cfg.serverWhiteListOption) ∧
    plan.master.whiteList = plan.volume.whiteList := by
  obtain ⟨-, maxCounts, -, -, -, hplan⟩ := runServer_ok_inv h
  subst hplan
  refine ⟨fun he => ?_, fun hne => ?_, rfl⟩
  · simp [planFor, he]
  · simp [planFor, hne]

/-- Witness for C6: empty flag on the default configuration gives both
servers the empty white list. -/
theorem whiteList_optional_and_shared_witness :
    demoConfig.serverWhiteListOption = "" ∧
    demoPlan.master.whiteList = [] ∧ demoPlan.volume.whiteList = [] :=
  ⟨rfl,
   (whiteList_optional_and_shared demoConfig demoWritable 4 demoPlan
      runServer_demoConfig_ok).1 rfl⟩

/-- **C7.** The peer set is computed once from the `-peers` flag
(lines 123-126: empty flag means no peers, otherwise one comma split)
and handed to `NewRaftServer`, which is registered on the same router
as `NewMasterServer` (the one `mux.NewRouter()` of line 106) and told
the very `ip:masterPort` address the master listener binds — peers
talk over the master's own endpoint.  In the embedding the peer list
is an immutable value derived from the flag alone. -/
theorem raft_peers_and_master_endpoint (cfg : ServerConfig)
    (writable : String → Bool) (numCPU : Nat) (plan : ServerPlan)
    (h : runServer cfg writable numCPU = .ok plan) :
    plan.raft.peers =
      (if cfg.serverPeers = "" then [] else goSplitComma cfg.serverPeers) ∧
    plan.raft.router = plan.master.router ∧
    plan.raft.httpAddr = plan.masterListenAddr ∧
    plan.masterListenAddr =
      cfg.serverIp ++ ":" ++ toString cfg.masterPort := by
  obtain ⟨-, maxCounts, -, -, -, hplan⟩ := runServer_ok_inv h
  subst hplan
  exact ⟨rfl, rfl, rfl, rfl⟩

/-- Witness for C7 on the default configuration: no peers, raft on the
master router at `localhost:9333`. -/
theorem raft_peers_and_master_endpoint_witness :
    demoPlan.raft.peers = [] ∧
    demoPlan.raft.router = demoPlan.master.router ∧
    demoPlan.raft.httpAddr = "localhost:9333" := by
  have h := raft_peers_and_master_endpoint demoConfig demoWritable 4 demoPlan
    runServer_demoConfig_ok
  refine ⟨h.1.trans (by decide), h.2.1, h.2.2.1.trans (h.2.2.2.trans (by decide))⟩

/-- **C8.** With `-mdir` empty, lines 66-68 make the metadata folder
the verbatim `-dir` string — for a multi-folder `-dir` that is the
whole comma-joined string — and line 69 then requires that single path
to be writable, else startup is fatal; on success `NewMasterServer`
receives it as its metadata folder. -/
theorem metaFolder_defaults_to_dir_flag (cfg : ServerConfig)
    (writable : String → Bool) (numCPU : Nat)
    (hm : cfg.masterMetaFolder = "") :
    effectiveMetaFolder cfg = cfg.volumeDataFolders ∧
    (writable cfg.volumeDataFolders = false →
      runServer cfg writable numCPU =
        .error (.metaFolderNotWritable cfg.volumeDataFolders)) ∧
    ∀ plan, runServer cfg writable numCPU = .ok plan →
      plan.master.metaFolder = cfg.volumeDataFolders := by
  have hemf : effectiveMetaFolder cfg = cfg.volumeDataFolders := by
    simp [effectiveMetaFolder, hm]
  refine ⟨hemf, fun hw => ?_, fun plan h => ?_⟩
  · unfold runServer
    dsimp only
    rw [hemf, hw]
    rfl
  · obtain ⟨-, maxCounts, -, -, -, hplan⟩ := runServer_ok_inv h
    subst hplan
    simp [planFor, hemf]

/-- Witness for C8: `-dir` `/d1,/d2`, `-mdir` empty, and only the
literal joined string `/d1,/d2` unwritable — startup is fatal even
though each individual folder is writable. -/
theorem metaFolder_defaults_to_dir_flag_witness :
    multiDirConfig.masterMetaFolder = "" ∧
    joinedPathUnwritable "/d1" = true ∧
    joinedPathUnwritable "/d2" = true ∧
    runServer multiDirConfig joinedPathUnwritable 4 =
      .error (.metaFolderNotWritable "/d1,/d2") :=
  ⟨rfl, by decide, by decide,
   (metaFolder_defaults_to_dir_flag multiDirConfig joinedPathUnwritable 4
      rfl).2.1 (by decide)⟩

/-- **C9.** With `-publicUrl` empty, lines 92-94 derive the volume
server's public URL as `ip:port`, and that derived string is the
`publicUrl` argument of `NewVolumeServer`; on the default flags it is
`localhost:8080`. -/
theorem publicUrl_defaults_to_ip_port (cfg : ServerConfig)
    (writable : String → Bool) (numCPU : Nat) (plan : ServerPlan)
    (h : runServer cfg writable numCPU = .ok plan)
    (hp : cfg.volumePublicUrl = "") :
    plan.volume.publicUrl =
      cfg.serverIp ++ ":" ++ toString cfg.volumePort := by
  obtain ⟨-, maxCounts, -, -, -, hplan⟩ := runServer_ok_inv h
  subst hplan
  simp [planFor, hp]

/-- Witness for C9: the default flags yield `localhost:8080`. -/
theorem publicUrl_defaults_to_ip_port_witness :
    demoConfig.volumePublicUrl = "" ∧
    demoPlan.volume.publicUrl = "localhost:8080" :=
  ⟨rfl,
   (publicUrl_defaults_to_ip_port demoConfig demoWritable 4 demoPlan
      runServer_demoConfig_ok rfl).trans (by decide)⟩
